import Mathlib

/-!
Shallow embedding of `src/zenoh-plugin-dds/src/dds_mgt.rs` (zenoh-plugin-dds).

The native middleware (Cyclone DDS) is foreign code reached through FFI; its
observable effects on reference counts, instance handles and return codes are
modelled as explicit inputs and as an event trace.  Every definition mirrors
the control flow of the Rust source it is named after.
-/

namespace DdsMgt

/-! ## Sample wrapping: `DDSRawSample` (dds_mgt.rs lines 117-217)

A `ddsi_serdata` handed out by `dds_takecdr` either already holds a serialized
buffer (`loan` null) or holds a loaned raw-memory sample.  The wrapper
`DDSRawSample::create` turns it into a serialized-buffer reference (`sdref`),
and `Drop for DDSRawSample` releases that reference exactly once
(`ddsi_serdata_to_ser_unref`).  Reference-count operations performed through
the FFI are recorded as events. -/

/-- Loaned-sample state, `(*metadata).sample_state` in the source: either
`DDS_LOANED_SAMPLE_STATE_RAW_DATA` or any other state. -/
inductive LoanSampleState
  | rawData
  | otherState
deriving DecidableEq, Repr

/-- The loan attached to a serdata (`(*serdata).loan`), with the metadata
field read by `DDSRawSample::create`. -/
structure Loan where
  metadata_sample_state : LoanSampleState
deriving DecidableEq, Repr

/-- The part of a native `ddsi_serdata` that `DDSRawSample::create` inspects:
whether a loan is attached, and whether `(*(*serdata).ops).from_sample` is
available (i.e. type information is complete). -/
structure Serdata where
  loan : Option Loan
  ops_from_sample : Bool
deriving DecidableEq, Repr

/-- Reference-count and forwarding effects performed through the FFI by the
data-forwarding paths.  `dest` is the zenoh key expression of the route. -/
inductive RefEvent
  | serRefAcquire                        -- ddsi_serdata_to_ser_ref
  | serRefRelease                        -- ddsi_serdata_to_ser_unref (DDSRawSample::drop)
  | serdataUnref                         -- ddsi_serdata_unref(zp), once per take
  | tempSerdataNew                       -- ddsi_serdata_from_sample (temporary)
  | tempSerdataUnref                     -- ddsi_serdata_unref(serialized_serdata)
  | publish (dest : String) (ok : Bool)  -- session.put(...).wait(), result discarded
  | logRouteFail (dest : String) (msg : String)  -- tracing::warn! in the Err arm
deriving DecidableEq, Repr

def RefEvent.isSerRefAcquire : RefEvent → Bool
  | .serRefAcquire => true
  | _ => false

def RefEvent.isSerRefRelease : RefEvent → Bool
  | .serRefRelease => true
  | _ => false

def RefEvent.isSerdataUnref : RefEvent → Bool
  | .serdataUnref => true
  | _ => false

def RefEvent.isTempNew : RefEvent → Bool
  | .tempSerdataNew => true
  | _ => false

def RefEvent.isTempUnref : RefEvent → Bool
  | .tempSerdataUnref => true
  | _ => false

def RefEvent.isPublishFail : RefEvent → Bool
  | .publish _ ok => !ok
  | _ => false

def RefEvent.isLogFail : RefEvent → Bool
  | .logRouteFail _ _ => true
  | _ => false

/-- `DDSRawSample::create` (lines 123-167).  Returns the construction result
together with the trace of reference-count operations it performs:
- no loan: take a serialized reference on the serdata itself;
- loan in RAW state with `from_sample` available: build a temporary serialized
  serdata, take a serialized reference on it, drop the temporary;
- loan in RAW state without `from_sample`: descriptive error, no reference
  taken;
- loan in any other state: descriptive error, no reference taken. -/
def DDSRawSample.create (serdata : Serdata) : Except String Unit × List RefEvent :=
  match serdata.loan with
  | none => (Except.ok (), [RefEvent.serRefAcquire])
  | some loan =>
    match loan.metadata_sample_state with
    | LoanSampleState.rawData =>
      if serdata.ops_from_sample then
        (Except.ok (),
          [RefEvent.tempSerdataNew, RefEvent.serRefAcquire, RefEvent.tempSerdataUnref])
      else
        (Except.error
          "Received sample from DDS contains a loan for which incomplete type information is held",
          [])
    | LoanSampleState.otherState =>
      (Except.error
        "Received sample from DDS contains a loan with an unexpected sample state",
        [])

/-- One sample as returned by `dds_takecdr` together with its sample-info
validity flag and the outcome the zenoh session would give to the publish
attempt for it (the environment of the foreign `put(...).wait()` call). -/
structure TakenSample where
  valid_data : Bool
  serdata : Serdata
  publishOk : Bool
deriving DecidableEq, Repr

/-- The body of the drain loop for a single taken sample (lines 426-462 for
the listener path, lines 545-570 for the periodic path; both are the same
drain-and-publish logic).  If the sample info says the data is valid, the
sample is wrapped; on success it is published (the publish result is
discarded), and the wrapper's destructor releases the serialized reference;
on wrap failure a warning naming the destination is logged.  In all cases the
taken serdata is unrefed once at the end. -/
def forwardOne (dest : String) (s : TakenSample) : List RefEvent :=
  (if s.valid_data then
    match DDSRawSample.create s.serdata with
    | (Except.ok _, evs) =>
        evs ++ [RefEvent.publish dest s.publishOk, RefEvent.serRefRelease]
    | (Except.error msg, evs) =>
        evs ++ [RefEvent.logRouteFail dest msg]
   else []) ++ [RefEvent.serdataUnref]

/-- `data_forwarder_listener` (lines 413-464): drain the reader one sample at
a time with `dds_takecdr` until it returns no sample, forwarding each.  The
available samples are modelled as the input list. -/
def data_forwarder_listener (dest : String) : List TakenSample → List RefEvent
  | [] => []
  | s :: rest => forwardOne dest s ++ data_forwarder_listener dest rest

/-! ## Periodic forwarding task (lines 512-575)

`create_forwarding_dds_reader` with a `read_period` spawns a task that loops:
at each iteration it calls `dds_get_instance_handle(reader, &mut handle)`;
if the call does not return `DDS_RETCODE_OK` the loop exits, and if the
handle differs from the one captured at task start the loop breaks; otherwise
it sleeps one period and drains the reader with the same drain-and-publish
logic as `data_forwarder_listener`.

The environment is modelled by `env i`, the result of the handle query at the
i-th loop check (`none` = a non-OK return code), and `drains i`, the samples
available at the i-th tick.  `fuel` bounds the number of iterations looked
at; the result pairs the list of `(tick, events)` for executed ticks with a
flag telling whether the loop has exited within the fuel. -/

def periodicTask (env : Nat → Option Nat) (drains : Nat → List TakenSample)
    (zkey : String) (original_handle : Nat) :
    Nat → Nat → List (Nat × List RefEvent) × Bool
  | 0, _ => ([], false)
  | fuel + 1, i =>
    match env i with
    | none => ([], true)
    | some handle =>
      if handle = original_handle then
        ((i, data_forwarder_listener zkey (drains i)) ::
            (periodicTask env drains zkey original_handle fuel (i + 1)).1,
          (periodicTask env drains zkey original_handle fuel (i + 1)).2)
      else ([], true)

/-! ## Discovery listener: `on_data` (lines 219-367)

The callback is invoked with a `DiscoveryType` and drains up to 32 samples.
Each sample is either an endpoint sample (`dds_builtintopic_endpoint_t`, for
`Publication`/`Subscription`) or a participant sample
(`dds_builtintopic_participant_t`).  Per sample, at most one
`DiscoveryEvent` is sent; a `continue` in the source is `none` here.  The key
arrays (`dds_builtintopic_guid_t.v : [u8; 16]`) are modelled as byte lists. -/

/-- `RouteStatus` (lines 40-46); the zenoh key expression is its string. -/
inductive RouteStatus
  | Routed (keyexpr : String)
  | NotAllowed
  | CreationFailure (reason : String)
  | QoSConflict
deriving DecidableEq, Repr

/-- An owned duplicate of a native type descriptor (`TypeInfo`, lines 48-69).
The native pointer's identity is abstracted to a tag. -/
structure TypeInfo where
  tag : Nat
deriving DecidableEq, Repr

/-- Reliability kind of the cyclors QoS binding. -/
inductive ReliabilityKind
  | BEST_EFFORT
  | RELIABLE
deriving DecidableEq, Repr

/-- Reliability policy: kind plus max blocking time (nanoseconds). -/
structure Reliability where
  kind : ReliabilityKind
  max_blocking_time : Int
deriving DecidableEq, Repr

/-- History kind of the cyclors QoS binding. -/
inductive HistoryKind
  | KEEP_LAST
  | KEEP_ALL
deriving DecidableEq, Repr

/-- History policy: kind plus depth. -/
structure History where
  kind : HistoryKind
  depth : Int
deriving DecidableEq, Repr

/-- The cyclors `Qos` record, restricted to the policies this crate touches
(`reliability` in `create_forwarding_dds_writer`, `history` in
`create_forwarding_dds_reader`); the remaining policies, which the crate
passes through untouched, are collapsed into `others`. -/
structure Qos where
  reliability : Option Reliability
  history : Option History
  others : List Nat
deriving DecidableEq, Repr

/-- `DdsEntity` (lines 71-82). -/
structure DdsEntity where
  key : String
  participant_key : String
  topic_name : String
  type_name : String
  type_info : Option TypeInfo
  keyless : Bool
  qos : Qos
  routes : List (String × RouteStatus)
deriving DecidableEq, Repr

/-- `DdsParticipant` (lines 84-88). -/
structure DdsParticipant where
  key : String
  qos : Qos
deriving DecidableEq, Repr

/-- `DiscoveryEvent` (lines 90-98). -/
inductive DiscoveryEvent
  | DiscoveredPublication (entity : DdsEntity)
  | UndiscoveredPublication (key : String)
  | DiscoveredSubscription (entity : DdsEntity)
  | UndiscoveredSubscription (key : String)
  | DiscoveredParticipant (entity : DdsParticipant)
  | UndiscoveredParticipant (key : String)
deriving DecidableEq, Repr

/-- `DiscoveryType` (lines 100-105). -/
inductive DiscoveryType
  | Participant
  | Publication
  | Subscription
deriving DecidableEq, Repr

/-- Rust `str::starts_with` on a string literal: the pattern's characters
are a prefix of the string's characters (equivalent to the byte-prefix test
for ASCII patterns such as "DCPS"). -/
def rustStartsWith (s pattern : String) : Bool :=
  s.data.take pattern.data.length == pattern.data

/-- Lower-case hex digit, as produced by the `hex` crate. -/
def hexDigitChar (n : Nat) : Char :=
  if n < 10 then Char.ofNat (48 + n) else Char.ofNat (87 + n)

/-- `hex::encode` over a byte array. -/
def hexEncode (bs : List Nat) : String :=
  String.mk (bs.flatMap fun b => [hexDigitChar (b / 16 % 16), hexDigitChar (b % 16)])

/-- `dds_instance_state_DDS_IST_ALIVE` of the Cyclone DDS binding. -/
def DDS_IST_ALIVE : Nat := 1

/-- `dds_instance_state_DDS_IST_NOT_ALIVE_DISPOSED` of the binding. -/
def DDS_IST_NOT_ALIVE_DISPOSED : Nat := 2

/-- An endpoint discovery sample (`dds_builtintopic_endpoint_t`) together
with the per-sample environment of the foreign calls made while processing
it.  `topic_name`/`type_name` are `none` when `CStr::to_str` fails (the
string is not valid UTF-8); `type_info_ret` is the return code of
`dds_builtintopic_get_endpoint_type_info` and `type_info_value` the pointed
type information (`none` models a null pointer). -/
structure EndpointSample where
  participant_instance_handle : Nat
  key : List Nat
  participant_key : List Nat
  topic_name : Option String
  type_name : Option String
  qos : Qos
  type_info_ret : Int
  type_info_value : Option TypeInfo
deriving DecidableEq, Repr

/-- A participant discovery sample (`dds_builtintopic_participant_t`). -/
structure ParticipantSample where
  key : List Nat
  qos : Qos
deriving DecidableEq, Repr

/-- The type-information lookup of lines 284-304: a successful call with a
non-null pointer yields a duplicated `TypeInfo`; a null pointer or a failing
return code downgrades to `none`. -/
def lookupTypeInfo (ret : Int) (value : Option TypeInfo) : Option TypeInfo :=
  if ret = 0 then value else none

/-- Processing of one endpoint sample by `on_data` (lines 244-333).  `dpih`
is the instance handle of the bridge's own participant; `instance_state` is
`si[i].instance_state`.  Returns the discovery event sent for this sample,
or `none` when the sample is skipped. -/
def processEndpointSample (discovery_type : DiscoveryType) (dpih : Nat)
    (sample : EndpointSample) (instance_state : Nat) : Option DiscoveryEvent :=
  if sample.participant_instance_handle = dpih then
    -- Ignore discovery of entities created by our own participant
    none
  else
    let is_alive := instance_state = DDS_IST_ALIVE
    let key := hexEncode sample.key
    if is_alive then
      match sample.topic_name with
      | none => none        -- invalid topic name: warn and continue
      | some topic_name =>
        if rustStartsWith topic_name "DCPS" then
          -- Ignoring discovery of a builtin topic
          none
        else
          match sample.type_name with
          | none => none    -- invalid topic type: warn and continue
          | some type_name =>
            let participant_key := hexEncode sample.participant_key
            let keyless :=
              (sample.key.getD 15 0 == 3) || (sample.key.getD 15 0 == 4)
            let type_info := lookupTypeInfo sample.type_info_ret sample.type_info_value
            let entity : DdsEntity :=
              { key := key, participant_key := participant_key,
                topic_name := topic_name, type_name := type_name,
                keyless := keyless, type_info := type_info,
                qos := sample.qos, routes := [] }
            match discovery_type with
            | DiscoveryType.Publication =>
                some (DiscoveryEvent.DiscoveredPublication entity)
            | _ => some (DiscoveryEvent.DiscoveredSubscription entity)
    else
      match discovery_type with
      | DiscoveryType.Publication => some (DiscoveryEvent.UndiscoveredPublication key)
      | _ => some (DiscoveryEvent.UndiscoveredSubscription key)

/-- Processing of one participant sample by `on_data` (lines 335-362).
`ownGuid` is the GUID of the bridge's own participant as returned by
`dds_get_guid(dp, ...)`. -/
def processParticipantSample (ownGuid : List Nat) (sample : ParticipantSample)
    (instance_state : Nat) : Option DiscoveryEvent :=
  let is_alive := instance_state = DDS_IST_ALIVE
  let key := hexEncode sample.key
  let guid := hexEncode ownGuid
  if key = guid then
    -- Ignore discovery of entities created by our own participant
    none
  else
    if is_alive then
      some (DiscoveryEvent.DiscoveredParticipant { key := key, qos := sample.qos })
    else
      some (DiscoveryEvent.UndiscoveredParticipant key)

/-! ## Writer creation and QoS normalization (lines 624-660) -/

/-- The reliability normalization of `create_forwarding_dds_writer`
(lines 635-644): a best-effort reliability policy is reset to `None` so that
the middleware default (RELIABLE with max_blocking_time = 100ms) applies;
every other QoS is used unchanged. -/
def force_reliable_qos (qos : Qos) : Qos :=
  match qos.reliability with
  | some r =>
    match r.kind with
    | ReliabilityKind.BEST_EFFORT => { qos with reliability := none }
    | _ => qos
  | none => qos

/-- Stand-in for the native `dds_strretcode` translation of a return code to
a message. -/
def dds_strretcode (r : Int) : String := "DDS retcode " ++ toString r

/-- Environment of the foreign calls made by `create_forwarding_dds_writer`:
the outcome of `create_topic` and the return of `dds_create_writer`. -/
structure WriterEnv where
  topic_result : Except String Int
  dds_create_writer_ret : Int
deriving Repr

/-- `create_forwarding_dds_writer` (lines 624-660), returning on success the
writer handle together with the QoS it converted to native form and applied
to the writer. -/
def create_forwarding_dds_writer (env : WriterEnv) (qos : Qos) :
    Except String (Int × Qos) :=
  match env.topic_result with
  | Except.error e => Except.error e
  | Except.ok _t =>
    let applied := force_reliable_qos qos
    let writer := env.dds_create_writer_ret
    if 0 ≤ writer then Except.ok (writer, applied)
    else Except.error ("Error creating DDS Writer: " ++ dds_strretcode (-writer))

/-! ## Entity deletion (lines 662-670) -/

/-- `DDS_RETCODE_ALREADY_DELETED` of the Cyclone DDS binding. -/
def DDS_RETCODE_ALREADY_DELETED : Int := -9

/-- `delete_dds_entity` (lines 662-670): the input is the return of the
native `dds_delete` call on the entity. -/
def delete_dds_entity (dds_delete_ret : Int) : Except String Unit :=
  if dds_delete_ret = 0 ∨ dds_delete_ret = DDS_RETCODE_ALREADY_DELETED then
    Except.ok ()
  else
    Except.error ("Error deleting DDS entity - retcode=" ++ toString dds_delete_ret)

/-! ## Payload access (lines 169-189)

Rust range slicing `&buf[i..]` panics when `i > buf.len()`; the model makes
the panic explicit as `none`. -/

/-- Rust slice-from-index: `&xs[i..]` succeeds iff `i ≤ xs.len()`. -/
def rustSliceFrom (xs : List Nat) (i : Nat) : Option (List Nat) :=
  if i ≤ xs.length then some (xs.drop i) else none

/-- `DDSRawSample::data_as_slice` (lines 169-178): the whole serialized
buffer. -/
def data_as_slice (data : List Nat) : List Nat := data

/-- `DDSRawSample::payload_as_slice` (lines 180-189): the serialized buffer
with its first 4 header bytes skipped, via unguarded slicing `[4..]`. -/
def payload_as_slice (data : List Nat) : Option (List Nat) :=
  rustSliceFrom data 4

/-- True iff the drain-loop body had to skip this sample because wrapping it
as a `DDSRawSample` failed (the only case the loop logs a routing warning
for). -/
def createErrored (s : TakenSample) : Bool :=
  s.valid_data &&
    (match (DDSRawSample.create s.serdata).1 with
     | Except.error _ => true
     | Except.ok _ => false)

/-! ## Concrete instances used to evaluate the model -/

/-- A QoS with every policy unset. -/
def qos0 : Qos := { reliability := none, history := none, others := [] }

/-- A best-effort reliability QoS. -/
def qosBestEffort : Qos :=
  { reliability := some ⟨ReliabilityKind.BEST_EFFORT, 100⟩, history := none, others := [] }

/-- GUID of the bridge's own participant in the concrete scenarios. -/
def ownGuid0 : List Nat := List.replicate 16 0

/-- An endpoint sample owned by the bridge participant (instance handle 7). -/
def epSelfSample : EndpointSample :=
  { participant_instance_handle := 7, key := List.replicate 16 1,
    participant_key := List.replicate 16 0,
    topic_name := some "rt/chatter", type_name := some "std_msgs::msg::String",
    qos := qos0, type_info_ret := 0, type_info_value := none }

/-- A participant sample whose GUID is the bridge participant's own GUID. -/
def partSelfSample : ParticipantSample := { key := ownGuid0, qos := qos0 }

/-- An alive endpoint sample of a foreign participant whose instance key has
reserved byte 3 (keyless). -/
def sChatter : EndpointSample :=
  { participant_instance_handle := 1, key := List.replicate 15 0 ++ [3],
    participant_key := List.replicate 16 2,
    topic_name := some "rt/chatter", type_name := some "std_msgs::msg::String",
    qos := qos0, type_info_ret := 0, type_info_value := none }

/-- The entity the listener builds for `sChatter`. -/
def eChatter : DdsEntity :=
  { key := hexEncode sChatter.key, participant_key := hexEncode sChatter.participant_key,
    topic_name := "rt/chatter", type_name := "std_msgs::msg::String",
    type_info := none, keyless := true, qos := qos0, routes := [] }

/-- An endpoint sample of a foreign participant on a builtin ("DCPS"-prefixed)
topic. -/
def dcpsSample : EndpointSample :=
  { participant_instance_handle := 1, key := List.replicate 16 0,
    participant_key := List.replicate 16 2,
    topic_name := some "DCPSPublication", type_name := some "T",
    qos := qos0, type_info_ret := 0, type_info_value := none }

/-- A serdata holding a raw-data loan with no `from_sample` available. -/
def loanNoTypeSerdata : Serdata :=
  { loan := some ⟨LoanSampleState.rawData⟩, ops_from_sample := false }

/-- A valid, wrappable sample whose publish attempt fails. -/
def failingPublishSample : TakenSample :=
  { valid_data := true, serdata := { loan := none, ops_from_sample := true },
    publishOk := false }

/-- A handle environment that answers 5 for the first two checks and then
fails: the reader was deleted before the third check. -/
def envRecycled : Nat → Option Nat := fun k => if k < 2 then some 5 else none

/-! ## Helper lemmas -/

/-- Per-sample accounting of the drain-loop body: exactly one
`ddsi_serdata_unref` per take, serialized references released exactly as
often as acquired (and at most once), temporaries balanced. -/
lemma forwardOne_counts (dest : String) (s : TakenSample) :
    (forwardOne dest s).countP RefEvent.isSerdataUnref = 1
    ∧ (forwardOne dest s).countP RefEvent.isSerRefRelease
        = (forwardOne dest s).countP RefEvent.isSerRefAcquire
    ∧ (forwardOne dest s).countP RefEvent.isSerRefRelease ≤ 1
    ∧ (forwardOne dest s).countP RefEvent.isTempUnref
        = (forwardOne dest s).countP RefEvent.isTempNew := by
  obtain ⟨v, ⟨l, ops⟩, pok⟩ := s
  rcases l with _ | ⟨_ | _⟩ <;> cases v <;> cases ops <;>
    simp [forwardOne, DDSRawSample.create, List.countP_cons, List.countP_nil,
      RefEvent.isSerdataUnref, RefEvent.isSerRefRelease, RefEvent.isSerRefAcquire,
      RefEvent.isTempUnref, RefEvent.isTempNew]

/-- Whole-drain accounting for `data_forwarder_listener`. -/
lemma dfl_counts (dest : String) (queue : List TakenSample) :
    (data_forwarder_listener dest queue).countP RefEvent.isSerdataUnref = queue.length
    ∧ (data_forwarder_listener dest queue).countP RefEvent.isSerRefRelease
        = (data_forwarder_listener dest queue).countP RefEvent.isSerRefAcquire
    ∧ (data_forwarder_listener dest queue).countP RefEvent.isTempUnref
        = (data_forwarder_listener dest queue).countP RefEvent.isTempNew := by
  induction queue with
  | nil => simp [data_forwarder_listener]
  | cons s rest ih =>
    have hs := forwardOne_counts dest s
    simp only [data_forwarder_listener, List.countP_append, List.length_cons]
    omega

/-- Every tick recorded by `periodicTask` carries exactly the trace of the
shared drain loop on that tick's available samples. -/
lemma periodicTask_events (env : Nat → Option Nat) (drains : Nat → List TakenSample)
    (zkey : String) (orig : Nat) :
    ∀ fuel i p, p ∈ (periodicTask env drains zkey orig fuel i).1 →
      p.2 = data_forwarder_listener zkey (drains p.1) := by
  intro fuel
  induction fuel with
  | zero => intro i p hp; simp [periodicTask] at hp
  | succ n ih =>
    intro i p hp
    unfold periodicTask at hp
    split at hp
    · simp at hp
    · split at hp
      · rcases List.mem_cons.mp hp with rfl | hp2
        · rfl
        · exact ih (i + 1) p hp2
      · simp at hp

/-- Reduction: a failing handle query exits the loop. -/
lemma periodicTask_none (env : Nat → Option Nat) (drains : Nat → List TakenSample)
    (zkey : String) (orig n i : Nat) (henv : env i = none) :
    periodicTask env drains zkey orig (n + 1) i = ([], true) := by
  unfold periodicTask
  split
  · rfl
  · next handle heq => rw [henv] at heq; cases heq

/-- Reduction: a recycled handle (different from the one captured at start)
breaks the loop. -/
lemma periodicTask_stop (env : Nat → Option Nat) (drains : Nat → List TakenSample)
    (zkey : String) (orig n i h : Nat) (henv : env i = some h) (hne : h ≠ orig) :
    periodicTask env drains zkey orig (n + 1) i = ([], true) := by
  unfold periodicTask
  split
  · rfl
  · next handle heq =>
    rw [henv] at heq
    injection heq with h2
    subst h2
    rw [if_neg hne]

/-- Reduction: an unchanged handle runs one tick and continues. -/
lemma periodicTask_go (env : Nat → Option Nat) (drains : Nat → List TakenSample)
    (zkey : String) (orig n i : Nat) (henv : env i = some orig) :
    periodicTask env drains zkey orig (n + 1) i
      = ((i, data_forwarder_listener zkey (drains i)) ::
            (periodicTask env drains zkey orig n (i + 1)).1,
          (periodicTask env drains zkey orig n (i + 1)).2) := by
  conv_lhs => unfold periodicTask
  split
  · next heq => rw [henv] at heq; cases heq
  · next handle heq =>
    rw [henv] at heq
    injection heq with h2
    subst h2
    rw [if_pos rfl]

/-- The periodic task halts once the handle check fails, and every tick it
ever ran lies strictly before the failing check. -/
lemma periodicTask_halts (env : Nat → Option Nat) (drains : Nat → List TakenSample)
    (zkey : String) (orig t : Nat)
    (hbefore : ∀ k, k < t → env k = some orig) (hat : env t ≠ some orig) :
    ∀ fuel i, i ≤ t → t < i + fuel →
      (periodicTask env drains zkey orig fuel i).2 = true
      ∧ ∀ p ∈ (periodicTask env drains zkey orig fuel i).1, p.1 < t := by
  intro fuel
  induction fuel with
  | zero => intro i hi hlt; omega
  | succ n ih =>
    intro i hi hlt
    by_cases hit : i = t
    · subst hit
      cases henv : env i with
      | none =>
        rw [periodicTask_none env drains zkey orig n i henv]
        exact ⟨rfl, by simp⟩
      | some h =>
        have hne : h ≠ orig := fun hcon => hat (by rw [henv, hcon])
        rw [periodicTask_stop env drains zkey orig n i h henv hne]
        exact ⟨rfl, by simp⟩
    · have hilt : i < t := lt_of_le_of_ne hi hit
      have henv : env i = some orig := hbefore i hilt
      rw [periodicTask_go env drains zkey orig n i henv]
      obtain ⟨hterm, hmem⟩ := ih (i + 1) (by omega) (by omega)
      refine ⟨hterm, ?_⟩
      intro p hp
      rcases List.mem_cons.mp hp with rfl | hp2
      · exact hilt
      · exact hmem p hp2

/-- The keyless flag of any discovered-endpoint entity produced by the
listener is computed from byte 15 of the sample's instance key. -/
lemma keyless_of_processEndpointSample (dt : DiscoveryType) (dpih : Nat)
    (s : EndpointSample) (st : Nat) (e : DdsEntity) (ev : DiscoveryEvent)
    (hev : processEndpointSample dt dpih s st = some ev)
    (he : ev = DiscoveryEvent.DiscoveredPublication e
        ∨ ev = DiscoveryEvent.DiscoveredSubscription e) :
    e.keyless = ((s.key.getD 15 0 == 3) || (s.key.getD 15 0 == 4)) := by
  simp only [processEndpointSample] at hev
  split at hev
  · cases hev
  · split at hev
    · split at hev
      · cases hev
      · split at hev
        · cases hev
        · split at hev
          · cases hev
          · split at hev
            · rcases he with rfl | rfl
              · injection hev with h2
                injection h2 with h3
                rw [← h3]
              · injection hev with h2
                cases h2
            · rcases he with rfl | rfl
              · injection hev with h2
                cases h2
              · injection hev with h2
                injection h2 with h3
                rw [← h3]
    · split at hev
      · rcases he with rfl | rfl <;> (injection hev with h2; cases h2)
      · rcases he with rfl | rfl <;> (injection hev with h2; cases h2)

/-- The drain-loop body logs a routing warning exactly when wrapping failed. -/
lemma forwardOne_logFail_count (dest : String) (s : TakenSample) :
    (forwardOne dest s).countP RefEvent.isLogFail
      = if createErrored s then 1 else 0 := by
  obtain ⟨v, ⟨l, ops⟩, pok⟩ := s
  rcases l with _ | ⟨_ | _⟩ <;> cases v <;> cases ops <;>
    simp [forwardOne, DDSRawSample.create, createErrored, List.countP_cons,
      List.countP_nil, RefEvent.isLogFail]

/-- Every routing warning emitted by the drain-loop body names the
destination of the route. -/
lemma forwardOne_logFail_dest (dest : String) (s : TakenSample) :
    ∀ e ∈ forwardOne dest s, RefEvent.isLogFail e = true →
      ∃ msg, e = RefEvent.logRouteFail dest msg := by
  intro e he hl
  cases e <;> simp [RefEvent.isLogFail] at hl
  case logRouteFail d m =>
    obtain ⟨v, ⟨l, ops⟩, pok⟩ := s
    rcases l with _ | ⟨_ | _⟩ <;> cases v <;> cases ops <;>
      simp [forwardOne, DDSRawSample.create] at he <;>
      exact ⟨m, by rw [he.1]⟩

/-! ## Claim theorems -/

/-- C1: over any drain (event-driven listener, and the periodic task whose
ticks run the same drain loop), every taken serdata is unrefed exactly once,
and the serialized reference wrapped by a `DDSRawSample` is released exactly
as often as it is acquired — at most once per sample, on every exit path
(invalid sample, wrap failure, publish success or failure) — with temporary
serialized serdatas balanced as well: no double release and no leak. -/
theorem c1_sample_released_exactly_once (dest : String) (queue : List TakenSample) :
    ((data_forwarder_listener dest queue).countP RefEvent.isSerdataUnref = queue.length
    ∧ (data_forwarder_listener dest queue).countP RefEvent.isSerRefRelease
        = (data_forwarder_listener dest queue).countP RefEvent.isSerRefAcquire
    ∧ (data_forwarder_listener dest queue).countP RefEvent.isTempUnref
        = (data_forwarder_listener dest queue).countP RefEvent.isTempNew)
    ∧ (∀ s : TakenSample,
        (forwardOne dest s).countP RefEvent.isSerdataUnref = 1
        ∧ (forwardOne dest s).countP RefEvent.isSerRefRelease
            = (forwardOne dest s).countP RefEvent.isSerRefAcquire
        ∧ (forwardOne dest s).countP RefEvent.isSerRefRelease ≤ 1)
    ∧ (∀ env drains zkey orig fuel i,
        List.Forall
          (fun p =>
            p.2.countP RefEvent.isSerdataUnref = (drains p.1).length
            ∧ p.2.countP RefEvent.isSerRefRelease = p.2.countP RefEvent.isSerRefAcquire)
          (periodicTask env drains zkey orig fuel i).1) := by
  refine ⟨dfl_counts dest queue, ?_, ?_⟩
  · intro s
    obtain ⟨a, b, c, _⟩ := forwardOne_counts dest s
    exact ⟨a, b, c⟩
  · intro env drains zkey orig fuel i
    rw [List.forall_iff_forall_mem]
    intro p hp
    rw [periodicTask_events env drains zkey orig fuel i p hp]
    exact ⟨(dfl_counts zkey (drains p.1)).1, (dfl_counts zkey (drains p.1)).2.1⟩

/-- C3: a discovery sample owned by the bridge's own participant — an
endpoint sample whose participant instance handle equals the bridge
participant's, or a participant sample whose instance GUID equals the bridge
participant's GUID — produces no discovery event, whatever its state. -/
theorem c3_own_participant_filtered :
    (∀ (dt : DiscoveryType) (dpih : Nat) (s : EndpointSample) (st : Nat),
      s.participant_instance_handle = dpih →
      processEndpointSample dt dpih s st = none)
    ∧ (∀ (ownGuid : List Nat) (s : ParticipantSample) (st : Nat),
      s.key = ownGuid →
      processParticipantSample ownGuid s st = none) := by
  constructor
  · intro dt dpih s st h
    simp [processEndpointSample, h]
  · intro ownGuid s st h
    simp [processParticipantSample, h]

/-- C7: writer creation resets a best-effort reliability QoS to unset (so
the middleware default — reliable with 100ms max blocking time — applies)
and passes any other reliability setting through unchanged; the QoS applied
to a successfully created writer is exactly this normalization of the input. -/
theorem c7_writer_reliability_normalized (qos : Qos) :
    (∀ mbt : Int,
      qos.reliability = some ⟨ReliabilityKind.BEST_EFFORT, mbt⟩ →
      (force_reliable_qos qos).reliability = none)
    ∧ ((∀ r : Reliability, qos.reliability = some r → r.kind ≠ ReliabilityKind.BEST_EFFORT) →
      force_reliable_qos qos = qos)
    ∧ (∀ (env : WriterEnv) (w : Int) (q : Qos),
      create_forwarding_dds_writer env qos = Except.ok (w, q) →
      q = force_reliable_qos qos) := by
  refine ⟨?_, ?_, ?_⟩
  · intro mbt h
    simp [force_reliable_qos, h]
  · intro h
    unfold force_reliable_qos
    cases hr : qos.reliability with
    | none => rfl
    | some r =>
      cases hk : r.kind with
      | BEST_EFFORT => exact absurd hk (h r hr)
      | RELIABLE => simp [hk]
  · intro env w q h
    obtain ⟨tr, wr⟩ := env
    cases tr with
    | error e => simp [create_forwarding_dds_writer] at h
    | ok t =>
      by_cases hw : (0 : Int) ≤ wr
      · simp only [create_forwarding_dds_writer, if_pos hw, Except.ok.injEq,
          Prod.mk.injEq] at h
        exact h.2.symm
      · simp [create_forwarding_dds_writer, hw] at h

/-- C9: deleting a native entity is idempotent — a native return of success
or of `ALREADY_DELETED` both yield `Ok`, and every other native failure code
yields a descriptive error string naming the code. -/
theorem c9_delete_idempotent :
    delete_dds_entity 0 = Except.ok ()
    ∧ delete_dds_entity DDS_RETCODE_ALREADY_DELETED = Except.ok ()
    ∧ ∀ r : Int, r ≠ 0 → r ≠ DDS_RETCODE_ALREADY_DELETED →
        delete_dds_entity r
          = Except.error ("Error deleting DDS entity - retcode=" ++ toString r) := by
  refine ⟨by simp [delete_dds_entity], by simp [delete_dds_entity], ?_⟩
  intro r h1 h2
  simp [delete_dds_entity, h1, h2]

/-- C9 witness: a plain failure code (-1) yields the descriptive error. -/
theorem c9_delete_idempotent_witness :
    delete_dds_entity (-1)
      = Except.error ("Error deleting DDS entity - retcode=" ++ toString (-1 : Int)) :=
  c9_delete_idempotent.2.2 (-1) (by decide) (by decide)

/-- C10: the payload accessor yields exactly the serialized buffer minus its
first 4 header bytes, and is only defined when the buffer holds at least 4
bytes — on a shorter buffer the unguarded slice `[4..]` is out of range
(modelled as `none`), with no guard at the public interface. -/
theorem c10_payload_skips_header (data : List Nat) :
    (payload_as_slice data = some (data.drop 4) ↔ 4 ≤ data.length)
    ∧ (data.length < 4 → payload_as_slice data = none) := by
  constructor
  · constructor
    · intro h
      by_contra hlen
      simp [payload_as_slice, rustSliceFrom, hlen] at h
    · intro h
      simp [payload_as_slice, rustSliceFrom, h]
  · intro h
    simp [payload_as_slice, rustSliceFrom]
    omega

/-- C10 witness: a 3-byte buffer makes the accessor panic (out of range). -/
theorem c10_payload_skips_header_witness :
    payload_as_slice [0, 1, 2] = none :=
  (c10_payload_skips_header [0, 1, 2]).2 (by decide)

/-- C2: whenever an alive endpoint discovery sample is turned into a
discovered-entity event, the entity's keyless flag is true exactly when byte
index 15 of the 16-byte instance key is 3 or 4; no other field enters the
computation. -/
theorem c2_keyless_iff_reserved_byte (dt : DiscoveryType) (dpih : Nat)
    (s : EndpointSample) (st : Nat) (e : DdsEntity)
    (h : processEndpointSample dt dpih s st
          = some (DiscoveryEvent.DiscoveredPublication e)
       ∨ processEndpointSample dt dpih s st
          = some (DiscoveryEvent.DiscoveredSubscription e)) :
    e.keyless = true ↔ (s.key.getD 15 0 = 3 ∨ s.key.getD 15 0 = 4) := by
  have hk : e.keyless = ((s.key.getD 15 0 == 3) || (s.key.getD 15 0 == 4)) := by
    rcases h with h | h
    · exact keyless_of_processEndpointSample dt dpih s st e _ h (Or.inl rfl)
    · exact keyless_of_processEndpointSample dt dpih s st e _ h (Or.inr rfl)
  rw [hk]
  simp

/-- C2 witness: the `rt/chatter` sample with reserved key byte 3 yields a
keyless publication entity. -/
theorem c2_keyless_iff_reserved_byte_witness :
    eChatter.keyless = true ↔ (sChatter.key.getD 15 0 = 3 ∨ sChatter.key.getD 15 0 = 4) :=
  c2_keyless_iff_reserved_byte DiscoveryType.Publication 0 sChatter DDS_IST_ALIVE
    eChatter (Or.inl (by decide))

/-- C3 witness: a self-owned endpoint sample and a self-owned participant
sample are both dropped. -/
theorem c3_own_participant_filtered_witness :
    processEndpointSample DiscoveryType.Publication 7 epSelfSample DDS_IST_ALIVE = none
    ∧ processParticipantSample ownGuid0 partSelfSample DDS_IST_ALIVE = none :=
  ⟨c3_own_participant_filtered.1 DiscoveryType.Publication 7 epSelfSample DDS_IST_ALIVE rfl,
   c3_own_participant_filtered.2 ownGuid0 partSelfSample DDS_IST_ALIVE rfl⟩

/-- C4: once the reader's native instance handle can no longer be obtained or
differs from the handle captured at task start, the periodic task terminates
at that very check, and every tick it ever drained-and-published lies before
that point — no publish uses the recycled reader. -/
theorem c4_periodic_task_stops_on_recycled_handle
    (env : Nat → Option Nat) (drains : Nat → List TakenSample) (zkey : String)
    (orig t fuel : Nat)
    (hbefore : ∀ k, k < t → env k = some orig)
    (hat : env t ≠ some orig)
    (hfuel : t < fuel) :
    (periodicTask env drains zkey orig fuel 0).2 = true
    ∧ ∀ p ∈ (periodicTask env drains zkey orig fuel 0).1,
        p.1 < t ∧ p.2 = data_forwarder_listener zkey (drains p.1) := by
  obtain ⟨h1, h2⟩ :=
    periodicTask_halts env drains zkey orig t hbefore hat fuel 0 (by omega) (by omega)
  exact ⟨h1, fun p hp =>
    ⟨h2 p hp, periodicTask_events env drains zkey orig fuel 0 p hp⟩⟩

/-- C4 witness: under `envRecycled` the task observes the recycling at the
third check and has exited within 4 iterations of fuel. -/
theorem c4_periodic_task_stops_on_recycled_handle_witness :
    (periodicTask envRecycled (fun _ => []) "k" 5 4 0).2 = true :=
  (c4_periodic_task_stops_on_recycled_handle envRecycled (fun _ => []) "k" 5 2 4
    (by decide) (by decide) (by decide)).1

/-- C5: wrapping a loaned raw-memory sample without an available
type-derived serialization function returns a descriptive error instead of
crashing, and the drain loop merely logs, unrefs the taken serdata, and
continues with the remaining samples. -/
theorem c5_loan_without_type_info_is_error (s : Serdata) (l : Loan)
    (h1 : s.loan = some l)
    (h2 : l.metadata_sample_state = LoanSampleState.rawData)
    (h3 : s.ops_from_sample = false) :
    (DDSRawSample.create s).1
      = Except.error
          "Received sample from DDS contains a loan for which incomplete type information is held"
    ∧ ∀ (dest : String) (pubOk : Bool) (rest : List TakenSample),
        data_forwarder_listener dest
            ({ valid_data := true, serdata := s, publishOk := pubOk } :: rest)
          = RefEvent.logRouteFail dest
              "Received sample from DDS contains a loan for which incomplete type information is held"
            :: RefEvent.serdataUnref :: data_forwarder_listener dest rest := by
  obtain ⟨lo, ops⟩ := s
  obtain ⟨lst⟩ := l
  subst h3
  subst h2
  subst h1
  exact ⟨rfl, fun dest pubOk rest => rfl⟩

/-- C5 witness: the concrete no-type-info loan serdata errors and is skipped
while the loop goes on. -/
theorem c5_loan_without_type_info_is_error_witness :
    (DDSRawSample.create loanNoTypeSerdata).1
      = Except.error
          "Received sample from DDS contains a loan for which incomplete type information is held"
    ∧ data_forwarder_listener "k"
          [{ valid_data := true, serdata := loanNoTypeSerdata, publishOk := true }]
        = [RefEvent.logRouteFail "k"
            "Received sample from DDS contains a loan for which incomplete type information is held",
           RefEvent.serdataUnref] :=
  ⟨(c5_loan_without_type_info_is_error loanNoTypeSerdata ⟨LoanSampleState.rawData⟩
      rfl rfl rfl).1,
   by
    have := (c5_loan_without_type_info_is_error loanNoTypeSerdata
      ⟨LoanSampleState.rawData⟩ rfl rfl rfl).2 "k" true []
    simpa using this⟩

/-- C6 counterexample: a valid sample that wraps fine but whose publish
fails produces a trace with one failed publish and zero log events — the
publish failure is not logged, contradicting the claim. -/
theorem c6_counterexample_publish_failure_unlogged :
    (data_forwarder_listener "k" [failingPublishSample]).countP RefEvent.isPublishFail = 1
    ∧ (data_forwarder_listener "k" [failingPublishSample]).countP RefEvent.isLogFail = 0 := by
  decide

/-- C6 amended: a publish failure never stops the drain loop — every
available sample is taken and processed whatever the publish outcomes, and
the publish result is discarded without logging; what is logged with
destination context is each wrap (sample-construction) failure. -/
theorem c6_publish_failure_never_stops_loop (dest : String) (queue : List TakenSample) :
    (data_forwarder_listener dest queue).countP RefEvent.isSerdataUnref = queue.length
    ∧ (∀ f : TakenSample → Bool,
        (data_forwarder_listener dest
            (queue.map fun s => { s with publishOk := f s })).countP
          RefEvent.isSerdataUnref = queue.length)
    ∧ (data_forwarder_listener dest queue).countP RefEvent.isLogFail
        = queue.countP createErrored
    ∧ ∀ e ∈ data_forwarder_listener dest queue, RefEvent.isLogFail e = true →
        ∃ msg, e = RefEvent.logRouteFail dest msg := by
  refine ⟨(dfl_counts dest queue).1, ?_, ?_, ?_⟩
  · intro f
    rw [(dfl_counts dest (queue.map fun s => { s with publishOk := f s })).1,
      List.length_map]
  · induction queue with
    | nil => simp [data_forwarder_listener]
    | cons s rest ih =>
      simp only [data_forwarder_listener, List.countP_append, List.countP_cons,
        forwardOne_logFail_count dest s, ih]
      cases hc : createErrored s <;> simp [Nat.add_comm]
  · induction queue with
    | nil => simp [data_forwarder_listener]
    | cons s rest ih =>
      intro e he hl
      rcases List.mem_append.mp he with he1 | he2
      · exact forwardOne_logFail_dest dest s e he1 hl
      · exact ih e he2 hl

/-- C6 amended witness: in a concrete drain containing a wrap failure, the
logged warning names the destination. -/
theorem c6_publish_failure_never_stops_loop_witness :
    ∃ msg,
      RefEvent.logRouteFail "k"
          "Received sample from DDS contains a loan for which incomplete type information is held"
        = RefEvent.logRouteFail "k" msg :=
  (c6_publish_failure_never_stops_loop "k"
      [{ valid_data := true, serdata := loanNoTypeSerdata, publishOk := true }]).2.2.2
    (RefEvent.logRouteFail "k"
      "Received sample from DDS contains a loan for which incomplete type information is held")
    (by decide) (by decide)

/-- C7 witness: a best-effort input QoS ends with reliability unset. -/
theorem c7_writer_reliability_normalized_witness :
    (force_reliable_qos qosBestEffort).reliability = none :=
  (c7_writer_reliability_normalized qosBestEffort).1 100 rfl

/-- C8 counterexample: a deletion (not-alive) endpoint sample whose topic
name starts with the builtin prefix "DCPS" still produces an event — the
builtin-topic filter is only applied to alive samples, so the claim's
quantification over deletion samples fails. -/
theorem c8_counterexample_builtin_deletion_emits :
    processEndpointSample DiscoveryType.Publication 0 dcpsSample
        DDS_IST_NOT_ALIVE_DISPOSED
      = some (DiscoveryEvent.UndiscoveredPublication (hexEncode dcpsSample.key)) := by
  decide

/-- C8 amended: for every ALIVE endpoint discovery sample whose topic name
begins with "DCPS", no discovery event is emitted; deletion samples are not
topic-filtered (their topic name is never read). -/
theorem c8_builtin_topic_filtered_when_alive (dt : DiscoveryType) (dpih : Nat)
    (s : EndpointSample) (t : String)
    (h1 : s.topic_name = some t) (h2 : rustStartsWith t "DCPS" = true) :
    processEndpointSample dt dpih s DDS_IST_ALIVE = none := by
  by_cases h0 : s.participant_instance_handle = dpih
  · simp [processEndpointSample, h0]
  · simp [processEndpointSample, h0, h1, h2]

/-- C8 amended witness: the alive builtin-topic sample is dropped. -/
theorem c8_builtin_topic_filtered_when_alive_witness :
    processEndpointSample DiscoveryType.Publication 0 dcpsSample DDS_IST_ALIVE = none :=
  c8_builtin_topic_filtered_when_alive DiscoveryType.Publication 0 dcpsSample
    "DCPSPublication" rfl (by decide)

end DdsMgt
